import Mathlib

/-!
Shallow embedding of the apify-client-js request layer: façade methods build
plain request descriptors (url, method, qs, headers, body, flags) and hand
them to a promise-returning dispatcher.  Pure decision logic (pagination
wrapping, signed-URL offload thresholds, parameter validation, option
merging) is translated here directly from the JavaScript source; external
collaborators (zlib gzip, the HTTP transport) appear as symbolic values or
explicit parameters.
-/

namespace Apify

/-! ## Dynamic parameter values

Façade methods receive a plain options object; values can be strings,
numbers, booleans, objects or arrays.  Structured objects and arrays are
never inspected by the client beyond their type, so they carry an opaque
identifier. -/

inductive ParamVal where
  | str (s : String)
  | num (n : Int)
  | bool (b : Bool)
  | obj (id : Nat)
  | arr (id : Nat)
deriving DecidableEq, Repr

/-- An options bag: a JS object modelled as an association list with
unique keys maintained by `setOpt`. -/
abbrev Options := List (String × ParamVal)

/-- Property read `o[k]` (first match). -/
def optGet : Options → String → Option ParamVal
  | [], _ => none
  | (k', v) :: rest, k => if k' = k then some v else optGet rest k

/-- Property write `o[k] = v`: overwrite in place, append when absent. -/
def setOpt : Options → String → ParamVal → Options
  | [], k, v => [(k, v)]
  | (k', v') :: rest, k, v =>
      if k' = k then (k, v) :: rest else (k', v') :: setOpt rest k v

/-- JS truthiness of an (optional) option value: `undefined`, `''`, `0`
and `false` are falsy; objects and arrays are always truthy. -/
def truthy : Option ParamVal → Bool
  | none => false
  | some (.str s) => s ≠ ""
  | some (.num n) => n ≠ 0
  | some (.bool b) => b
  | some (.obj _) => true
  | some (.arr _) => true

/-- String coercion used when a value is interpolated into a URL. -/
def paramToString : ParamVal → String
  | .str s => s
  | .num n => toString n
  | .bool b => if b then "true" else "false"
  | .obj id => "[object " ++ toString id ++ "]"
  | .arr id => "[array " ++ toString id ++ "]"

/-- Read an option expected to be a string, defaulting to `""`.
Only used after validation has established the value is a string. -/
def strOf (v : Option ParamVal) : String :=
  match v with
  | some (.str s) => s
  | _ => ""

/-! ## Bodies and payload encoding -/

/-- A raw request body supplied by the caller: a string, a byte buffer,
or a structured value destined for JSON serialization.  Buffers and
structured values are never inspected, only passed along, so they carry
opaque identifiers. -/
inductive RawBody where
  | str (s : String)
  | buf (id : Nat)
  | jsonData (id : Nat)
deriving DecidableEq, Repr

def RawBody.isString : RawBody → Bool
  | .str _ => true
  | _ => false

/-- An encoded body: either the raw value passed through unchanged or the
result of `JSON.stringify`.  Serialization itself is external
(`JSON.stringify`), so it stays symbolic. -/
inductive Encoded where
  | asIs (b : RawBody)
  | jsonStringify (b : RawBody)
deriving DecidableEq, Repr

/-- Modelled from the spec: `utils.encodeBody` is not under `src/`; §4.2
says "if content-type is JSON and the value is not already a string,
serialize via structured-to-text JSON encoding; otherwise pass through as
given".  The legacy local copy in `key_value_stores.js` stringifies
unconditionally for JSON; both agree on non-JSON content types. -/
def encodeBody (b : RawBody) (contentType : String) : Encoded :=
  if contentType = "application/json" && !b.isString then .jsonStringify b else .asIs b

/-- Local `encodeBody` of `key_value_stores.js`: stringify exactly when the
content type is JSON (`CONTENT_TYPE_JSON`), else pass through. -/
def encodeBodyLegacy (b : RawBody) (contentType : String) : Encoded :=
  if contentType = "application/json" then .jsonStringify b else .asIs b

/-- The value placed in a request's `body` field.  `gzipped e len` is the
zlib-compressed form of the encoded body `e`; compression is external, so
the compressed bytes are represented by the encoded payload they came from
together with their length (the only attribute the client reads). -/
inductive BodyVal where
  | gzipped (e : Encoded) (len : Nat)
  | plain (e : Encoded)
  | jsonBody (b : RawBody)
deriving DecidableEq, Repr

/-! ## Request descriptors -/

/-- One request descriptor handed to the dispatcher (`requestPromise` /
`httpClient.call`). -/
structure Request where
  url : String
  method : String
  json : Bool := true
  qs : List (String × ParamVal) := []
  headers : List (String × String) := []
  body? : Option BodyVal := none
  expBackOffMaxRepeats? : Option Nat := none
deriving DecidableEq, Repr

/-! ## Errors -/

/-- The error taxonomy of the client (spec §7), restricted to what the
embedded operations produce.  `apiError status` stands for a transport
failure carrying the HTTP status code. -/
inductive ClientError where
  | missingParameter (name : String)
  | invalidParameterType (name : String)
  | conflictingParameters (msg : String)
  | apiError (status : Nat)
deriving DecidableEq, Repr

def ClientError.status? : ClientError → Option Nat
  | .apiError s => some s
  | _ => none

/-! ## Parameter validation -/

inductive ParamType where
  | string | number | boolean | object | array
deriving DecidableEq, Repr

def typeMatches : ParamVal → ParamType → Bool
  | .str _, .string => true
  | .num _, .number => true
  | .bool _, .boolean => true
  | .obj _, .object => true
  | .arr _, .array => true
  | _, _ => false

inductive ParamKind where
  | required (t : ParamType)
  | maybe (t : ParamType)
deriving DecidableEq, Repr

/-- Modelled from the spec: `utils.checkParamOrThrow` is not under `src/`;
§4.1 says it "fails fast (before any network call) with a
`MissingParameter` or `InvalidParameterType` error naming the offending
parameter", with `Maybe` kinds accepting an absent value. -/
def checkParam (v : Option ParamVal) (name : String) (k : ParamKind) :
    Except ClientError Unit :=
  match k, v with
  | .required _, none => .error (.missingParameter name)
  | .required t, some x =>
      if typeMatches x t then .ok () else .error (.invalidParameterType name)
  | .maybe _, none => .ok ()
  | .maybe t, some x =>
      if typeMatches x t then .ok () else .error (.invalidParameterType name)

/-! ## Envelope and not-found handling -/

/-- The `{ data: <payload> }` envelope most endpoints return. -/
structure Envelope (α : Type) where
  data : α
deriving DecidableEq, Repr

/-- Modelled from the spec: `utils.catchNotFoundOrThrow` is not under
`src/`; §4.3/§7 say an HTTP 404 on a lookup is "mapped to a not-found
outcome (null/undefined result) rather than raised", every other error is
rethrown. -/
def catchNotFoundOrThrow {α : Type} (e : ClientError) : Except ClientError (Option α) :=
  if e.status? = some 404 then .ok none else .error e

/-- `datasets.js getDataset`: dispatch, `.then(pluckData)`,
`.catch(catchNotFoundOrThrow)`.  The transport outcome is the explicit
argument. -/
def getDatasetOutcome {α : Type} (r : Except ClientError (Envelope α)) :
    Except ClientError (Option α) :=
  match r with
  | .ok env => .ok (some env.data)
  | .error e => catchNotFoundOrThrow e

/-- `key-value stores getStore`: same pipeline as `getDataset`
(`pluckData` then `catchNotFoundOrThrow`). -/
def getStoreOutcome {α : Type} (r : Except ClientError (Envelope α)) :
    Except ClientError (Option α) :=
  match r with
  | .ok env => .ok (some env.data)
  | .error e => catchNotFoundOrThrow e

/-- `datasets.js deleteDataset`: dispatch only — the source attaches no
`.catch`, so every transport error propagates. -/
def deleteDatasetOutcome {α : Type} (r : Except ClientError α) :
    Except ClientError (Option α) :=
  match r with
  | .ok v => .ok (some v)
  | .error e => .error e

/-- `key-value stores deleteRecord`: dispatch only, no `.catch` in the
source. -/
def deleteRecordOutcome {α : Type} (r : Except ClientError α) :
    Except ClientError (Option α) :=
  match r with
  | .ok v => .ok (some v)
  | .error e => .error e

/-! ## Pagination lists (claim C1) -/

/-- The pagination-related response headers the client reads.  Header
values are numeric strings on the wire; the numeric conversion
(`Number(...)`) is modelled by carrying them as `Nat`. -/
structure PagHeaders where
  paginationTotal : Nat
  paginationOffset : Nat
  paginationCount : Nat
  paginationLimit : Nat
deriving DecidableEq, Repr

/-- A raw list response: parsed body (`response.data` / `response.body`)
plus headers. -/
structure ListResponse (α : Type) where
  data : List α
  headers : PagHeaders
deriving DecidableEq, Repr

structure PaginationList (α : Type) where
  items : List α
  total : Nat
  offset : Nat
  count : Nat
  limit : Nat
deriving DecidableEq, Repr

/-- `DatasetClient._createPaginationList`: `count` is recomputed locally as
`response.data.length` because the count header can be invalid when
hidden/empty items are skipped. -/
def createPaginationList {α : Type} (r : ListResponse α) : PaginationList α :=
  { items := r.data
    total := r.headers.paginationTotal
    offset := r.headers.paginationOffset
    count := r.data.length
    limit := r.headers.paginationLimit }

/-- `crawlers.js wrapArray`: every field, `count` included, is taken from
the `x-apifier-pagination-*` response headers. -/
def wrapArray {α : Type} (r : ListResponse α) : PaginationList α :=
  { items := r.data
    total := r.headers.paginationTotal
    offset := r.headers.paginationOffset
    count := r.headers.paginationCount
    limit := r.headers.paginationLimit }

/-! ## Slash-to-tilde path segments (claim C7) -/

/-- Core of `replaceSlashWithTilde`: JS `String.prototype.replace` with a
string pattern substitutes only the first occurrence. -/
def replaceFirstSlash : List Char → List Char
  | [] => []
  | c :: cs => if c = '/' then '~' :: cs else c :: replaceFirstSlash cs

/-- `tasks.js`: `const replaceSlashWithTilde = str => str.replace('/', '~')`. -/
def replaceSlashWithTilde (s : String) : String :=
  ⟨replaceFirstSlash s.data⟩

/-- URL built by `tasks.js updateTask` for the dispatch
(`${baseUrl}${BASE_PATH}/${safeTaskId}`). -/
def updateTaskUrl (baseUrl taskId : String) : String :=
  baseUrl ++ "/v2/actor-tasks/" ++ replaceSlashWithTilde taskId

/-! ## Request queue endpoints (claim C4)

`request_queues.js` builds one descriptor per operation; the request-level
operations additionally set `expBackOffMaxRepeats`. -/

def REQUEST_ENDPOINTS_EXP_BACKOFF_MAX_REPEATS : Nat := 9

def requestQueuesBasePath : String := "/v2/request-queues"

/-- `getOrCreateQueue`. -/
def getOrCreateQueueReq (baseUrl token queueName : String) : Request :=
  { url := baseUrl ++ requestQueuesBasePath
    method := "POST"
    json := true
    qs := [("name", .str queueName), ("token", .str token)] }

/-- `listQueues` (query assembled from the truthy options). -/
def listQueuesReq (baseUrl token : String) (limit offset : Option Int)
    (desc unnamed : Bool) : Request :=
  { url := baseUrl ++ requestQueuesBasePath
    method := "GET"
    json := true
    qs := [("token", .str token)]
      ++ (match limit with | some l => if l ≠ 0 then [("limit", .num l)] else [] | none => [])
      ++ (match offset with | some o => if o ≠ 0 then [("offset", .num o)] else [] | none => [])
      ++ (if desc then [("desc", .num 1)] else [])
      ++ (if unnamed then [("unnamed", .num 1)] else []) }

/-- `getQueue`: no `expBackOffMaxRepeats` in the source. -/
def getQueueReq (baseUrl queueId : String) (token : Option String) : Request :=
  { url := baseUrl ++ requestQueuesBasePath ++ "/" ++ queueId
    method := "GET"
    json := true
    qs := match token with
      | some t => if t ≠ "" then [("token", .str t)] else []
      | none => [] }

/-- `deleteQueue`: no `expBackOffMaxRepeats` in the source. -/
def deleteQueueReq (baseUrl queueId token : String) : Request :=
  { url := baseUrl ++ requestQueuesBasePath ++ "/" ++ queueId
    method := "DELETE"
    json := true
    qs := [("token", .str token)] }

/-- `addRequest`: sets `expBackOffMaxRepeats` to the queue-endpoint ceiling. -/
def addRequestReq (baseUrl queueId : String) (request : RawBody)
    (forefront : Bool) (token : String) : Request :=
  { url := baseUrl ++ requestQueuesBasePath ++ "/" ++ queueId ++ "/requests"
    method := "POST"
    json := true
    body? := some (.jsonBody request)
    qs := [("forefront", .bool forefront), ("token", .str token)]
    expBackOffMaxRepeats? := some REQUEST_ENDPOINTS_EXP_BACKOFF_MAX_REPEATS }

/-- `getRequest`. -/
def getRequestReq (baseUrl queueId requestId : String) (token : Option String) : Request :=
  { url := baseUrl ++ requestQueuesBasePath ++ "/" ++ queueId ++ "/requests/" ++ requestId
    method := "GET"
    json := true
    qs := match token with
      | some t => if t ≠ "" then [("token", .str t)] else []
      | none => []
    expBackOffMaxRepeats? := some REQUEST_ENDPOINTS_EXP_BACKOFF_MAX_REPEATS }

/-- `deleteRequest`. -/
def deleteRequestReq (baseUrl queueId requestId token : String) : Request :=
  { url := baseUrl ++ requestQueuesBasePath ++ "/" ++ queueId ++ "/requests/" ++ requestId
    method := "DELETE"
    json := true
    qs := [("token", .str token)]
    expBackOffMaxRepeats? := some REQUEST_ENDPOINTS_EXP_BACKOFF_MAX_REPEATS }

/-- `updateRequest` (the `safeRequestId` resolution is done by the caller). -/
def updateRequestReq (baseUrl queueId safeRequestId : String) (request : RawBody)
    (forefront : Bool) (token : String) : Request :=
  { url := baseUrl ++ requestQueuesBasePath ++ "/" ++ queueId ++ "/requests/" ++ safeRequestId
    method := "PUT"
    json := true
    body? := some (.jsonBody request)
    qs := [("forefront", .bool forefront), ("token", .str token)]
    expBackOffMaxRepeats? := some REQUEST_ENDPOINTS_EXP_BACKOFF_MAX_REPEATS }

/-- `getHead`. -/
def getHeadReq (baseUrl queueId : String) (limit : Int) (token : Option String) : Request :=
  { url := baseUrl ++ requestQueuesBasePath ++ "/" ++ queueId ++ "/head"
    method := "GET"
    json := true
    qs := (if limit ≠ 0 then [("limit", .num limit)] else [])
      ++ (match token with
          | some t => if t ≠ "" then [("token", .str t)] else []
          | none => [])
    expBackOffMaxRepeats? := some REQUEST_ENDPOINTS_EXP_BACKOFF_MAX_REPEATS }

/-! ## Large-payload write plans (claims C2, C6, C10)

`putRecord` (`key-value-stores.js`, the gzip variant) and `putItems`
(`datasets.js`) gzip the encoded body, then decide between a direct upload
and a signed-URL offload.  The gzip result is external, so the plans take
the compressed length and (for the offload branch) the signed URL returned
by the negotiated handshake as parameters, and list the requests issued in
order. -/

def SIGNED_URL_UPLOAD_MIN_BYTESIZE : Nat := 1024 * 256

structure PutRecordOptions where
  baseUrl : String
  storeId : String
  key : String
  body : RawBody
  contentType? : Option String := none
  useRawBody : Bool := false
deriving DecidableEq, Repr

/-- Content type after the destructuring default `contentType = 'text/plain'`. -/
def PutRecordOptions.contentType (o : PutRecordOptions) : String :=
  o.contentType?.getD "text/plain"

/-- Encoded body of `putRecord`:
`useRawBody ? body : encodeBody(body, contentType)`. -/
def PutRecordOptions.encoded (o : PutRecordOptions) : Encoded :=
  if o.useRawBody then .asIs o.body else encodeBody o.body o.contentType

/-- The requests `putRecord` issues once `gzipPromise` has produced a
compressed body of length `gzLen`; `signedUrl` is the URL the
direct-upload-url handshake would return. -/
def putRecordRequests (o : PutRecordOptions) (gzLen : Nat) (signedUrl : String) :
    List Request :=
  let recordUrl := o.baseUrl ++ "/v2/key-value-stores/" ++ o.storeId ++ "/records/" ++ o.key
  let direct : Request :=
    { url := recordUrl
      method := "PUT"
      json := false
      body? := some (.gzipped o.encoded gzLen)
      headers := [("Content-Type", o.contentType), ("Content-Encoding", "gzip")] }
  if gzLen < SIGNED_URL_UPLOAD_MIN_BYTESIZE then
    [direct]
  else
    [ { url := recordUrl ++ "/direct-upload-url"
        method := "GET"
        json := true
        headers := [("Content-Type", o.contentType)] },
      { direct with url := signedUrl } ]

/-- The requests `putItems` issues once `gzipPromise` has compressed
`JSON.stringify(data)` to length `gzLen`: always a single POST to the
dataset items endpoint — the source has no signed-URL branch. -/
def putItemsRequests (baseUrl datasetId : String) (data : RawBody) (gzLen : Nat) :
    List Request :=
  [ { url := baseUrl ++ "/v2/datasets/" ++ datasetId ++ "/items"
      method := "POST"
      json := false
      body? := some (.gzipped (.jsonStringify data) gzLen)
      headers := [("Content-Type", "application/json; charset=utf-8"),
                  ("Content-Encoding", "gzip")] } ]

/-- Legacy `putRecord` of `key_value_stores.js`: the offload is chosen by
the caller's `url` flag, not by size; the direct path sends the encoded
body uncompressed with only a `Content-Type` header. -/
def putRecordLegacyRequests (o : PutRecordOptions) (urlFlag : Bool)
    (gzLen : Nat) (signedUrl : String) : List Request :=
  let recordUrl := o.baseUrl ++ "/v2/key-value-stores/" ++ o.storeId ++ "/records/" ++ o.key
  let direct : Request :=
    { url := recordUrl
      method := "PUT"
      json := false
      body? := some (.plain (if o.useRawBody then .asIs o.body
                             else encodeBodyLegacy o.body o.contentType))
      headers := [("Content-Type", o.contentType)] }
  if !urlFlag then
    [direct]
  else
    [ { direct with body? := none, json := true, qs := [("url", .num 1)] },
      { direct with
          url := signedUrl
          body? := some (.gzipped (if o.useRawBody then .asIs o.body
                                   else encodeBodyLegacy o.body o.contentType) gzLen)
          headers := [("Content-Type", o.contentType), ("Content-Encoding", "gzip")] } ]

/-- Observable: within a write plan, the signed-URL handshake is the GET
request (the actual uploads are PUT/POST). -/
def isSignedUrlHandshake (r : Request) : Bool :=
  r.method == "GET"

/-- Observable: the URLs of the requests that actually carry a body. -/
def uploadUrls (plan : List Request) : List String :=
  (plan.filter (fun r => r.body?.isSome)).map Request.url

/-- Sample options for a small `putRecord`. -/
def putRecordSample : PutRecordOptions :=
  { baseUrl := "https://api.apify.com", storeId := "s1", key := "k1", body := .str "hello" }

/-- The direct upload request that `putRecordSample` produces below the
threshold. -/
def putRecordSampleReq : Request :=
  { url := "https://api.apify.com/v2/key-value-stores/s1/records/k1"
    method := "PUT"
    json := false
    body? := some (.gzipped putRecordSample.encoded 100)
    headers := [("Content-Type", putRecordSample.contentType), ("Content-Encoding", "gzip")] }

/-- Options of a `putRecord` call that omits `contentType`. -/
def putRecordDefaultOpts (baseUrl storeId key : String) (body : RawBody) :
    PutRecordOptions :=
  { baseUrl := baseUrl, storeId := storeId, key := key, body := body }

/-! ## Call outcomes: synchronous throw vs. promise (claims C5, C8)

A legacy façade method is a plain function: an error raised during
validation escapes the call synchronously.  A new-style resource-client
method is an `async` function: the same raise surfaces as a rejected
promise instead.  The embedding keeps the two delivery channels apart. -/

deriving instance DecidableEq for Except

inductive CallOutcome (α : Type) where
  | thrownSync (e : ClientError)
  | promiseResult (r : Except ClientError α)
deriving DecidableEq, Repr

def CallOutcome.isThrownSync {α : Type} : CallOutcome α → Bool
  | .thrownSync _ => true
  | _ => false

def CallOutcome.isRejectedPromise {α : Type} : CallOutcome α → Bool
  | .promiseResult (.error _) => true
  | _ => false

/-- The validation prefix of `tasks.js listTasks` (source order). -/
def validateListTasks (o : Options) : Except ClientError Unit := do
  checkParam (optGet o "baseUrl") "baseUrl" (.required .string)
  checkParam (optGet o "token") "token" (.required .string)
  checkParam (optGet o "limit") "limit" (.maybe .number)
  checkParam (optGet o "offset") "offset" (.maybe .number)
  checkParam (optGet o "desc") "desc" (.maybe .boolean)

/-- Query string of `listTasks`: `{ token }` plus the truthy options. -/
def listTasksQuery (o : Options) : List (String × ParamVal) :=
  [("token", .str (strOf (optGet o "token")))]
    ++ (if truthy (optGet o "limit") then [("limit", (optGet o "limit").getD (.num 0))] else [])
    ++ (if truthy (optGet o "offset") then [("offset", (optGet o "offset").getD (.num 0))] else [])
    ++ (if truthy (optGet o "desc") then [("desc", .num 1)] else [])

/-- The requests `listTasks` issues: none when validation raises. -/
def listTasksRequests (o : Options) : List Request :=
  match validateListTasks o with
  | .error _ => []
  | .ok () =>
      [ { url := strOf (optGet o "baseUrl") ++ "/v2/actor-tasks"
          method := "GET"
          json := true
          qs := listTasksQuery o } ]

/-- `listTasks` as decorated by `methodDecorator`: a plain (non-async)
function, so a validation failure escapes as a synchronous throw before
`requestPromise` is ever invoked; otherwise the dispatch result is
returned as a promise. -/
def listTasksCall {α : Type} (o : Options)
    (transport : Except ClientError (Envelope α)) : CallOutcome α :=
  match validateListTasks o with
  | .error e => .thrownSync e
  | .ok () => .promiseResult (transport.map Envelope.data)

/-- The `ow` exact-shape check of `DatasetClient.listItems`: every key must
belong to the declared shape and match its declared type; all fields are
optional.  `fields`/`omit` are arrays, `unwind` a string, `limit`/`offset`
numbers, the rest booleans. -/
def owListItemsShape : Options → Except ClientError Unit
  | [] => .ok ()
  | (k, v) :: rest =>
      let ok :=
        if k = "clean" ∨ k = "desc" ∨ k = "skipEmpty" ∨ k = "skipHidden" then
          typeMatches v .boolean
        else if k = "limit" ∨ k = "offset" then
          typeMatches v .number
        else if k = "fields" ∨ k = "omit" then
          typeMatches v .array
        else if k = "unwind" then
          typeMatches v .string
        else false
      if ok then owListItemsShape rest else .error (.invalidParameterType k)

/-- The requests `DatasetClient.listItems` issues: none when validation
raises. -/
def listItemsRequests (baseUrl : String) (o : Options) : List Request :=
  match owListItemsShape o with
  | .error _ => []
  | .ok () =>
      [ { url := baseUrl ++ "/items"
          method := "GET"
          json := true
          qs := o } ]

/-- `DatasetClient.listItems` is an `async` method: the `ow` raise happens
inside the async body, so the caller observes a rejected promise, never a
synchronous throw. -/
def listItemsCall {α : Type} (o : Options)
    (transport : Except ClientError (ListResponse α)) : CallOutcome (PaginationList α) :=
  match owListItemsShape o with
  | .error e => .promiseResult (.error e)
  | .ok () => .promiseResult (transport.map createPaginationList)

/-! ## runTask (claim C8) -/

/-- The validation prefix of `tasks.js runTask` (source order, before the
body/input compatibility block). -/
def validateRunTaskBase (o : Options) : Except ClientError Unit := do
  checkParam (optGet o "baseUrl") "baseUrl" (.required .string)
  checkParam (optGet o "token") "token" (.required .string)
  checkParam (optGet o "taskId") "taskId" (.required .string)
  checkParam (optGet o "waitForFinish") "waitForFinish" (.maybe .number)
  checkParam (optGet o "timeout") "timeout" (.maybe .number)
  checkParam (optGet o "memory") "memory" (.maybe .number)
  checkParam (optGet o "build") "build" (.maybe .string)
  checkParam (optGet o "webhooks") "webhooks" (.maybe .array)
  checkParam (optGet o "input") "input" (.maybe .object)

/-- Message of the raise in the backwards-compatibility block of `runTask`. -/
def runTaskConflictMsg : String :=
  "You cannot use deprecated parameter \x22body\x22 along with its replacement \x22input\x22!"

/-- Identifier of the structured `input` object (only reached when
`input` validated as an object). -/
def jsonIdOf : Option ParamVal → Nat
  | some (.obj id) => id
  | _ => 0

/-- `runTask` up to the dispatch: validations, query assembly, then the
legacy `body` / structured `input` compatibility block.  Returns the
descriptor handed to `requestPromise`, or the error raised before any
request is issued. -/
def runTaskCall (o : Options) : Except ClientError Request :=
  match validateRunTaskBase o with
  | .error e => .error e
  | .ok () =>
    let safeTaskId := replaceSlashWithTilde (strOf (optGet o "taskId"))
    let query : List (String × ParamVal) :=
      [("token", .str (strOf (optGet o "token")))]
        ++ (if truthy (optGet o "waitForFinish") then
              [("waitForFinish", (optGet o "waitForFinish").getD (.num 0))] else [])
        ++ (if truthy (optGet o "timeout") then
              [("timeout", (optGet o "timeout").getD (.num 0))] else [])
        ++ (if truthy (optGet o "memory") then
              [("memory", (optGet o "memory").getD (.num 0))] else [])
        ++ (if truthy (optGet o "build") then
              [("build", (optGet o "build").getD (.str ""))] else [])
        ++ (if truthy (optGet o "webhooks") then
              [("webhooks", (optGet o "webhooks").getD (.arr 0))] else [])
    let base : Request :=
      { url := strOf (optGet o "baseUrl") ++ "/v2/actor-tasks/" ++ safeTaskId ++ "/runs"
        method := "POST"
        json := false
        qs := query }
    let step : Except ClientError Request :=
      if truthy (optGet o "body") then
        if truthy (optGet o "input") then
          .error (.conflictingParameters runTaskConflictMsg)
        else
          match checkParam (optGet o "contentType") "contentType" (.maybe .string) with
          | .error e => .error e
          | .ok () =>
            match checkParam (optGet o "body") "body" (.required .string) with
            | .error e => .error e
            | .ok () =>
              .ok { base with
                body? := some (.plain (.asIs (.str (strOf (optGet o "body")))))
                headers := if truthy (optGet o "contentType") then
                    [("Content-Type", strOf (optGet o "contentType"))] else [] }
      else .ok base
    match step with
    | .error e => .error e
    | .ok withBody =>
        .ok (if truthy (optGet o "input") then
              { withBody with
                  body? := some (.jsonBody (.jsonData (jsonIdOf (optGet o "input"))))
                  json := true }
             else withBody)

/-- Observable: did the call fail with the conflicting-parameters raise? -/
def isConflictResult (r : Except ClientError Request) : Bool :=
  match r with
  | .error (.conflictingParameters _) => true
  | _ => false

/-- Observable: is the error the conflicting-parameters one? -/
def errIsConflict : ClientError → Bool
  | .conflictingParameters _ => true
  | _ => false

/-- Sample `runTask` options supplying both the legacy `body` and the
structured `input` (base parameters valid). -/
def runTaskBothOpts : Options :=
  [("baseUrl", .str "https://api.apify.com"), ("token", .str "tok"),
   ("taskId", .str "t1"), ("body", .str "raw"), ("input", .obj 1)]

/-- Sample `runTask` options supplying only the legacy `body`. -/
def runTaskBodyOnlyOpts : Options :=
  [("baseUrl", .str "https://api.apify.com"), ("token", .str "tok"),
   ("taskId", .str "t1"), ("body", .str "raw")]

/-! ## Instance options and setOptions (claim C9)

`ApifyClient` keeps one mutable `instanceOpts` object.  `methodDecorator`
copies it (`Object.assign({}, instanceOpts, callOpts)`) when a call is
issued and derives `baseUrl` on the copy; `setOptions` overwrites keys of
the shared object in place.  The embedding threads the instance options as
explicit state through a trace of events. -/

/-- `Object.assign(acc, kvs)`: copy the own properties of `kvs` over `acc`. -/
def assignAll (acc : Options) (kvs : List (String × ParamVal)) : Options :=
  kvs.foldl (fun a kv => setOpt a kv.1 kv.2) acc

/-- `setOptions(newOptions)`: overwrite each listed key on the instance
snapshot. -/
def setOptions (inst : Options) (newOpts : List (String × ParamVal)) : Options :=
  assignAll inst newOpts

/-- `Object.assign({}, instanceOpts, callOpts)`. -/
def mergeOpts (inst callOpts : Options) : Options :=
  assignAll inst callOpts

/-- `mergedOpts.baseUrl = protocol + '://' + host + (port ? ':'+port : '')
+ basePath`. -/
def buildBaseUrl (o : Options) : String :=
  strOf (optGet o "protocol") ++ "://" ++ strOf (optGet o "host")
    ++ (if truthy (optGet o "port") then
          ":" ++ paramToString ((optGet o "port").getD (.num 0)) else "")
    ++ strOf (optGet o "basePath")

/-- The request descriptor seed built by `methodDecorator` for one call:
the merged options with `baseUrl` attached. -/
def buildDescriptor (inst callOpts : Options) : Options :=
  setOpt (mergeOpts inst callOpts) "baseUrl" (.str (buildBaseUrl (mergeOpts inst callOpts)))

inductive ClientEvent where
  | call (callOpts : Options)
  | setOpts (newOpts : List (String × ParamVal))
deriving DecidableEq, Repr

/-- Run a trace of calls and `setOptions` mutations against the instance
snapshot, collecting the descriptor each call was built with. -/
def runEvents (inst : Options) : List ClientEvent → List Options
  | [] => []
  | .call c :: es => buildDescriptor inst c :: runEvents inst es
  | .setOpts o :: es => runEvents (setOptions inst o) es

/-! ## Helper lemmas -/

lemma replaceFirstSlash_of_split (p q : List Char) (hp : '/' ∉ p) :
    replaceFirstSlash (p ++ '/' :: q) = p ++ '~' :: q := by
  induction p with
  | nil => simp [replaceFirstSlash]
  | cons c cs ih =>
      have hc : c ≠ '/' := fun h => hp (by simp [h])
      have hcs : '/' ∉ cs := fun h => hp (List.mem_cons_of_mem _ h)
      simp only [List.cons_append, replaceFirstSlash, if_neg hc, List.append_eq, ih hcs]

lemma optGet_setOpt_self (o : Options) (k : String) (v : ParamVal) :
    optGet (setOpt o k v) k = some v := by
  induction o with
  | nil => simp [setOpt, optGet]
  | cons kv rest ih =>
      by_cases h : kv.1 = k
      · simp [setOpt, optGet, h]
      · simp [setOpt, optGet, h, ih]

lemma optGet_setOpt_ne (o : Options) (k' k : String) (v : ParamVal) (h : k' ≠ k) :
    optGet (setOpt o k' v) k = optGet o k := by
  induction o with
  | nil => simp [setOpt, optGet, h]
  | cons kv rest ih =>
      by_cases hk : kv.1 = k'
      · simp [setOpt, optGet, hk, h]
      · simp only [setOpt, if_neg hk]
        by_cases hk2 : kv.1 = k
        · simp [optGet, hk2]
        · simp [optGet, hk2, ih]

lemma optGet_cons_none {k' : String} {v : ParamVal} {rest : Options} {k : String}
    (h : optGet ((k', v) :: rest) k = none) :
    k' ≠ k ∧ optGet rest k = none := by
  by_cases hk : k' = k
  · simp [optGet, hk] at h
  · exact ⟨hk, by simpa [optGet, hk] using h⟩

lemma optGet_assignAll_of_none (c : Options) (inst : Options) (k : String)
    (h : optGet c k = none) : optGet (assignAll inst c) k = optGet inst k := by
  induction c generalizing inst with
  | nil => simp [assignAll]
  | cons kv rest ih =>
      obtain ⟨hne, hrest⟩ := optGet_cons_none h
      have : assignAll inst (kv :: rest) = assignAll (setOpt inst kv.1 kv.2) rest := by
        simp [assignAll]
      rw [this, ih _ hrest, optGet_setOpt_ne _ _ _ _ hne]

lemma checkParam_error (v : Option ParamVal) (n : String) (k : ParamKind)
    (e : ClientError) (h : checkParam v n k = .error e) : errIsConflict e = false := by
  unfold checkParam at h
  cases k <;> cases v <;> simp_all [errIsConflict] <;> (try split at h) <;>
    (try simp_all) <;> subst h <;> rfl

lemma isConflictResult_error (e : ClientError) :
    isConflictResult (.error e) = errIsConflict e := by
  cases e <;> rfl

lemma runEvents_append_setOpts (es : List ClientEvent) (inst : Options)
    (o : List (String × ParamVal)) :
    runEvents inst (es ++ [ClientEvent.setOpts o]) = runEvents inst es := by
  induction es generalizing inst with
  | nil => simp [runEvents]
  | cons e rest ih =>
      cases e with
      | call c => simp [runEvents, ih]
      | setOpts o' => simp [runEvents, ih]

/-! # Claims -/

/-- C1: the claim states that every list-type operation returns a
Pagination List with `count = items.length` regardless of the transport's
count header.  The legacy crawler wrapper `wrapArray` takes `count`
straight from the `x-apifier-pagination-count` header: on a response whose
body has one item but whose count header says 5, the returned `count` is 5
while `items.length` is 1. -/
theorem claim_C1_counterexample :
    (wrapArray { data := [7], headers :=
        { paginationTotal := 1, paginationOffset := 0,
          paginationCount := 5, paginationLimit := 10 } }).count ≠
    (wrapArray { data := ([7] : List Nat), headers :=
        { paginationTotal := 1, paginationOffset := 0,
          paginationCount := 5, paginationLimit := 10 } }).items.length := by
  decide

/-- C1 (amended): the new-style `DatasetClient._createPaginationList`
recomputes `count` locally as `items.length`, ignoring the count header;
the legacy crawler `wrapArray` copies `count` (like every other field)
from the pagination response headers, so there it is the header value, not
the local length. -/
theorem claim_C1 {α : Type} (r : ListResponse α) :
    (createPaginationList r).count = (createPaginationList r).items.length ∧
    (wrapArray r).count = r.headers.paginationCount ∧
    (createPaginationList r).items = r.data ∧ (wrapArray r).items = r.data := by
  exact ⟨rfl, rfl, rfl, rfl⟩

/-- C4: the claim states that every request-queue endpoint operation
passes the 9-repeat backoff override.  `getQueue` builds its descriptor
without `expBackOffMaxRepeats`, so the override is absent there. -/
theorem claim_C4_counterexample :
    (getQueueReq "https://api.apify.com" "queue1" none).expBackOffMaxRepeats? ≠
      some REQUEST_ENDPOINTS_EXP_BACKOFF_MAX_REPEATS := by
  decide

/-- C4 (amended): the request-level queue operations (`addRequest`,
`getRequest`, `deleteRequest`, `updateRequest`, `getHead`) dispatch with
`expBackOffMaxRepeats = 9`; the queue-level operations
(`getOrCreateQueue`, `listQueues`, `getQueue`, `deleteQueue`) pass no
override and fall back to the dispatcher default. -/
theorem claim_C4 (baseUrl queueId requestId token queueName : String)
    (request : RawBody) (forefront : Bool) (limit offset : Option Int) (lim : Int)
    (desc unnamed : Bool) (tok : Option String) :
    (addRequestReq baseUrl queueId request forefront token).expBackOffMaxRepeats? =
      some REQUEST_ENDPOINTS_EXP_BACKOFF_MAX_REPEATS ∧
    (getRequestReq baseUrl queueId requestId tok).expBackOffMaxRepeats? =
      some REQUEST_ENDPOINTS_EXP_BACKOFF_MAX_REPEATS ∧
    (deleteRequestReq baseUrl queueId requestId token).expBackOffMaxRepeats? =
      some REQUEST_ENDPOINTS_EXP_BACKOFF_MAX_REPEATS ∧
    (updateRequestReq baseUrl queueId requestId request forefront token).expBackOffMaxRepeats? =
      some REQUEST_ENDPOINTS_EXP_BACKOFF_MAX_REPEATS ∧
    (getHeadReq baseUrl queueId lim tok).expBackOffMaxRepeats? =
      some REQUEST_ENDPOINTS_EXP_BACKOFF_MAX_REPEATS ∧
    REQUEST_ENDPOINTS_EXP_BACKOFF_MAX_REPEATS = 9 ∧
    (getOrCreateQueueReq baseUrl token queueName).expBackOffMaxRepeats? = none ∧
    (listQueuesReq baseUrl token limit offset desc unnamed).expBackOffMaxRepeats? = none ∧
    (getQueueReq baseUrl queueId tok).expBackOffMaxRepeats? = none ∧
    (deleteQueueReq baseUrl queueId token).expBackOffMaxRepeats? = none := by
  exact ⟨rfl, rfl, rfl, rfl, rfl, rfl, rfl, rfl, rfl, rfl⟩

/-- C7: the claim states every `/` in an identifier is replaced by `~`.
JS `str.replace('/', '~')` with a string pattern substitutes only the
first occurrence: on `"a/b/c"` the client produces `"a~b/c"`, not
`"a~b~c"`. -/
theorem claim_C7_counterexample :
    replaceSlashWithTilde "a/b/c" = "a~b/c" ∧
    replaceSlashWithTilde "a/b/c" ≠ "a~b~c" := by
  decide

/-- C7 (amended): only the first `/` of the identifier is replaced by
`~` in the path segment (later slashes are passed through unchanged), and
`updateTask` builds its URL from that substituted segment. -/
theorem claim_C7 (s : String) (p q : List Char) (hp : '/' ∉ p)
    (hs : s.data = p ++ '/' :: q) (baseUrl : String) :
    (replaceSlashWithTilde s).data = p ++ '~' :: q ∧
    updateTaskUrl baseUrl s = baseUrl ++ "/v2/actor-tasks/" ++ replaceSlashWithTilde s := by
  refine ⟨?_, rfl⟩
  show (replaceFirstSlash s.data) = p ++ '~' :: q
  rw [hs, replaceFirstSlash_of_split p q hp]

/-- C7 witness: the amended statement at `s = "a/b"`. -/
theorem claim_C7_witness :
    (replaceSlashWithTilde "a/b").data = ['a'] ++ '~' :: ['b'] ∧
    updateTaskUrl "x" "a/b" = "x" ++ "/v2/actor-tasks/" ++ replaceSlashWithTilde "a/b" :=
  claim_C7 "a/b" ['a'] ['b'] (by decide) (by decide) "x"

/-- C2: the claim states that `putItems` also negotiates a signed URL when
the compressed body reaches 256 KiB.  `datasets.js putItems` has no
signed-URL branch: at compressed length 262144 it still issues a single
POST straight to the dataset items endpoint, with no handshake request. -/
theorem claim_C2_counterexample :
    (putItemsRequests "https://api.apify.com" "ds" (.jsonData 0) 262144).filter
        isSignedUrlHandshake = [] ∧
    uploadUrls (putItemsRequests "https://api.apify.com" "ds" (.jsonData 0) 262144) =
      ["https://api.apify.com/v2/datasets/ds/items"] := by
  decide

/-- C2 (amended): `putRecord` applies the 256 KiB rule — below the
threshold one direct upload and no handshake, at or above it exactly one
signed-URL handshake followed by an upload to the signed URL; `putItems`
always uploads directly to the dataset endpoint with no handshake,
whatever the compressed size. -/
theorem claim_C2 (o : PutRecordOptions) (gzLen : Nat) (signedUrl : String)
    (baseUrl datasetId : String) (data : RawBody) :
    ((putRecordRequests o gzLen signedUrl).filter isSignedUrlHandshake).length =
      (if gzLen < SIGNED_URL_UPLOAD_MIN_BYTESIZE then 0 else 1) ∧
    uploadUrls (putRecordRequests o gzLen signedUrl) =
      [if gzLen < SIGNED_URL_UPLOAD_MIN_BYTESIZE then
          o.baseUrl ++ "/v2/key-value-stores/" ++ o.storeId ++ "/records/" ++ o.key
        else signedUrl] ∧
    (putItemsRequests baseUrl datasetId data gzLen).filter isSignedUrlHandshake = [] ∧
    uploadUrls (putItemsRequests baseUrl datasetId data gzLen) =
      [baseUrl ++ "/v2/datasets/" ++ datasetId ++ "/items"] := by
  unfold putRecordRequests putItemsRequests uploadUrls isSignedUrlHandshake
  by_cases h : gzLen < SIGNED_URL_UPLOAD_MIN_BYTESIZE <;>
    simp [h, List.filter]

/-- C6: for `putRecord` and `putItems`, every request of the plan that
carries a body transmits the gzip compression of the encoded body and
bears both a `Content-Encoding: gzip` header and the payload's
`Content-Type` header — on the direct path and on the signed-URL upload
alike (the handshake request carries no body and is exempt). -/
theorem claim_C6 (o : PutRecordOptions) (gzLen : Nat) (signedUrl : String)
    (baseUrl datasetId : String) (data : RawBody) (r : Request) :
    (r ∈ putRecordRequests o gzLen signedUrl → ∀ b, r.body? = some b →
       b = .gzipped o.encoded gzLen ∧
       ("Content-Type", o.contentType) ∈ r.headers ∧
       ("Content-Encoding", "gzip") ∈ r.headers) ∧
    (r ∈ putItemsRequests baseUrl datasetId data gzLen → ∀ b, r.body? = some b →
       b = .gzipped (.jsonStringify data) gzLen ∧
       ("Content-Type", "application/json; charset=utf-8") ∈ r.headers ∧
       ("Content-Encoding", "gzip") ∈ r.headers) := by
  constructor
  · intro hr b hb
    unfold putRecordRequests at hr
    by_cases h : gzLen < SIGNED_URL_UPLOAD_MIN_BYTESIZE <;> simp [h] at hr
    · subst hr
      simp at hb
      simp [← hb]
    · rcases hr with hr | hr <;> subst hr
      · simp at hb
      · simp at hb
        simp [← hb]
  · intro hr b hb
    unfold putItemsRequests at hr
    simp at hr
    subst hr
    simp at hb
    simp [← hb]

/-- C6 witness: the statement at the sample record, for the direct upload
request of the plan. -/
theorem claim_C6_witness :
    putRecordSampleReq ∈ putRecordRequests putRecordSample 100 "sig" ∧
    putRecordSampleReq.body? = some (.gzipped putRecordSample.encoded 100) ∧
    (BodyVal.gzipped putRecordSample.encoded 100 = .gzipped putRecordSample.encoded 100 ∧
     ("Content-Type", putRecordSample.contentType) ∈ putRecordSampleReq.headers ∧
     ("Content-Encoding", "gzip") ∈ putRecordSampleReq.headers) :=
  ⟨by decide, by decide,
    (claim_C6 putRecordSample 100 "sig" "b" "d" (.jsonData 0) putRecordSampleReq).1
      (by decide) _ (by decide)⟩

/-- C10: when `contentType` is omitted, `putRecord` defaults it to
`text/plain` (both the gzip variant and the legacy variant): the body is
encoded under `text/plain` (pass-through, no JSON serialization) and every
request of the plan carries a `Content-Type: text/plain` header. -/
theorem claim_C10 (baseUrl storeId key : String) (body : RawBody) (gzLen : Nat)
    (signedUrl : String) :
    (putRecordDefaultOpts baseUrl storeId key body).contentType = "text/plain" ∧
    (putRecordDefaultOpts baseUrl storeId key body).encoded = .asIs body ∧
    ((putRecordRequests (putRecordDefaultOpts baseUrl storeId key body) gzLen signedUrl).all
        fun r => r.headers.contains ("Content-Type", "text/plain")) = true ∧
    (putRecordRequests (putRecordDefaultOpts baseUrl storeId key body) gzLen
        signedUrl).filterMap Request.body? = [.gzipped (.asIs body) gzLen] ∧
    ((putRecordLegacyRequests (putRecordDefaultOpts baseUrl storeId key body) false gzLen
        signedUrl).all fun r => r.headers.contains ("Content-Type", "text/plain")) = true ∧
    (putRecordLegacyRequests (putRecordDefaultOpts baseUrl storeId key body) false gzLen
        signedUrl).filterMap Request.body? = [.plain (.asIs body)] := by
  refine ⟨rfl, ?_, ?_, ?_, ?_, ?_⟩ <;>
    by_cases h : gzLen < SIGNED_URL_UPLOAD_MIN_BYTESIZE <;>
      simp [putRecordRequests, putRecordLegacyRequests, putRecordDefaultOpts,
        PutRecordOptions.contentType, PutRecordOptions.encoded, encodeBody,
        encodeBodyLegacy, h, List.all, List.filterMap]

/-- C3: the claim states that DELETE lookups also resolve to null on HTTP
404.  `deleteDataset` and `deleteRecord` attach no `catchNotFoundOrThrow`
in the source, so a 404 transport error propagates to the caller instead
of resolving to a null result. -/
theorem claim_C3_counterexample :
    deleteDatasetOutcome (α := Nat) (.error (.apiError 404)) = .error (.apiError 404) ∧
    deleteDatasetOutcome (α := Nat) (.error (.apiError 404)) ≠ .ok none ∧
    deleteRecordOutcome (α := Nat) (.error (.apiError 404)) ≠ .ok none := by
  decide

/-- C3 (amended): GET lookups (`getDataset`, `getStore`, …) pipe errors
through `catchNotFoundOrThrow`, so HTTP 404 resolves to a null result and
every other error is re-raised; the DELETE operations have no such catch
and propagate every error, 404 included. -/
theorem claim_C3 {α : Type} (e : ClientError) :
    (e.status? = some 404 →
       getDatasetOutcome (α := α) (.error e) = .ok none ∧
       getStoreOutcome (α := α) (.error e) = .ok none) ∧
    (e.status? ≠ some 404 →
       getDatasetOutcome (α := α) (.error e) = .error e ∧
       getStoreOutcome (α := α) (.error e) = .error e) ∧
    deleteDatasetOutcome (α := α) (.error e) = .error e ∧
    deleteRecordOutcome (α := α) (.error e) = .error e := by
  refine ⟨fun h => ?_, fun h => ?_, rfl, rfl⟩ <;>
    simp [getDatasetOutcome, getStoreOutcome, catchNotFoundOrThrow, h]

/-- C3 witness: the amended statement at a 404 transport error. -/
theorem claim_C3_witness :
    (ClientError.apiError 404).status? = some 404 ∧
    (getDatasetOutcome (α := Nat) (.error (.apiError 404)) = .ok none ∧
     getStoreOutcome (α := Nat) (.error (.apiError 404)) = .ok none) :=
  ⟨by decide, (claim_C3 (α := Nat) (.apiError 404)).1 (by decide)⟩

/-- C5: the claim states that every public client method raises validation
errors synchronously, never as a rejected promise.  `DatasetClient.listItems`
is an `async` method whose `ow` shape check runs inside the async body: on
a wrongly-typed `limit` the caller observes a rejected promise carrying
the validation error, not a synchronous throw (no HTTP request is issued
either way). -/
theorem claim_C5_counterexample :
    owListItemsShape [("limit", ParamVal.str "x")] =
      .error (.invalidParameterType "limit") ∧
    listItemsCall (α := Nat) [("limit", ParamVal.str "x")] (.error (.apiError 500)) =
      .promiseResult (.error (.invalidParameterType "limit")) ∧
    (listItemsCall (α := Nat) [("limit", ParamVal.str "x")]
        (.error (.apiError 500))).isThrownSync = false ∧
    listItemsRequests "u" [("limit", ParamVal.str "x")] = [] := by
  decide

/-- C5 (amended): validation always runs before any HTTP request is
issued, but the delivery channel differs by client style: the legacy
promise/callback façade methods (decorated by `methodDecorator`) throw
`MissingParameter`/`InvalidParameterType` errors synchronously, while the
new-style async resource-client methods surface the same failure as a
rejected promise. -/
theorem claim_C5 {α : Type} (o o2 : Options) (e e2 : ClientError) (baseUrl : String)
    (t : Except ClientError (Envelope α)) (t2 : Except ClientError (ListResponse α)) :
    (validateListTasks o = .error e →
       listTasksCall o t = .thrownSync e ∧ listTasksRequests o = []) ∧
    (owListItemsShape o2 = .error e2 →
       listItemsCall o2 t2 = .promiseResult (.error e2) ∧
       listItemsRequests baseUrl o2 = []) := by
  constructor <;> intro h <;>
    simp [listTasksCall, listTasksRequests, listItemsCall, listItemsRequests, h]

/-- C5 witness: the amended statement at a `listTasks` call missing its
required `token` and a `listItems` call with a wrongly-typed `limit`. -/
theorem claim_C5_witness :
    validateListTasks [("baseUrl", ParamVal.str "u")] =
      .error (.missingParameter "token") ∧
    owListItemsShape [("limit", ParamVal.str "x")] =
      .error (.invalidParameterType "limit") ∧
    ((listTasksCall (α := Nat) [("baseUrl", ParamVal.str "u")] (.error (.apiError 500)) =
        .thrownSync (.missingParameter "token") ∧
      listTasksRequests [("baseUrl", ParamVal.str "u")] = []) ∧
     (listItemsCall (α := Nat) [("limit", ParamVal.str "x")] (.error (.apiError 500)) =
        .promiseResult (.error (.invalidParameterType "limit")) ∧
      listItemsRequests "u" [("limit", ParamVal.str "x")] = [])) :=
  ⟨by decide, by decide,
    (claim_C5 [("baseUrl", ParamVal.str "u")] [("limit", ParamVal.str "x")]
        (.missingParameter "token") (.invalidParameterType "limit") "u"
        (.error (.apiError 500)) (.error (.apiError 500))).1 (by decide),
    (claim_C5 [("baseUrl", ParamVal.str "u")] [("limit", ParamVal.str "x")]
        (.missingParameter "token") (.invalidParameterType "limit") "u"
        (.error (.apiError 500)) (.error (.apiError 500))).2 (by decide)⟩

/-- C8: when `runTask` receives both the legacy raw `body` and the
structured `input`, it raises the conflicting-parameters error in the
compatibility block, before any request descriptor reaches the
dispatcher; when at most one of the two is supplied (the rest of the call
being otherwise valid), the call never produces that error. -/
theorem claim_C8 (o o2 : Options) :
    (validateRunTaskBase o = .ok () →
       truthy (optGet o "body") = true → truthy (optGet o "input") = true →
       runTaskCall o = .error (.conflictingParameters runTaskConflictMsg)) ∧
    (validateRunTaskBase o2 = .ok () →
       (truthy (optGet o2 "body") && truthy (optGet o2 "input")) = false →
       isConflictResult (runTaskCall o2) = false) := by
  constructor
  · intro hv hb hi
    simp [runTaskCall, hv, hb, hi]
  · intro hv hbi
    by_cases hb : truthy (optGet o2 "body") = true
    · have hi : truthy (optGet o2 "input") = false := by
        cases hh : truthy (optGet o2 "input") <;> simp_all
      rcases hc : checkParam (optGet o2 "contentType") "contentType" (.maybe .string) with ec | u
      · have h1 : errIsConflict ec = false := checkParam_error _ _ _ _ hc
        simp [runTaskCall, hv, hb, hi, hc, isConflictResult_error, h1]
      · rcases hc2 : checkParam (optGet o2 "body") "body" (.required .string) with ec2 | u2
        · have h2 : errIsConflict ec2 = false := checkParam_error _ _ _ _ hc2
          simp [runTaskCall, hv, hb, hi, hc, hc2, isConflictResult_error, h2]
        · simp [runTaskCall, hv, hb, hi, hc, hc2, isConflictResult]
    · have hb2 : truthy (optGet o2 "body") = false := by
        cases hh : truthy (optGet o2 "body") <;> simp_all
      simp [runTaskCall, hv, hb2, isConflictResult]

/-- C8 witness: the statement at a base-valid call supplying both `body`
and `input`, and at the same call with only `body`. -/
theorem claim_C8_witness :
    validateRunTaskBase runTaskBothOpts = .ok () ∧
    truthy (optGet runTaskBothOpts "body") = true ∧
    truthy (optGet runTaskBothOpts "input") = true ∧
    validateRunTaskBase runTaskBodyOnlyOpts = .ok () ∧
    (truthy (optGet runTaskBodyOnlyOpts "body") &&
      truthy (optGet runTaskBodyOnlyOpts "input")) = false ∧
    (runTaskCall runTaskBothOpts = .error (.conflictingParameters runTaskConflictMsg) ∧
     isConflictResult (runTaskCall runTaskBodyOnlyOpts) = false) :=
  ⟨by decide, by decide, by decide, by decide, by decide,
    (claim_C8 runTaskBothOpts runTaskBodyOnlyOpts).1 (by decide) (by decide) (by decide),
    (claim_C8 runTaskBothOpts runTaskBodyOnlyOpts).2 (by decide) (by decide)⟩

/-- C9: `setOptions` only changes the instance-level snapshot used to seed
future calls: appending a `setOptions` mutation to a trace leaves every
descriptor already built unchanged; a mutation before a call makes the
call build from the updated snapshot; and a freshly set key (not shadowed
by per-call options) appears with its new value in the next descriptor. -/
theorem claim_C9 (inst : Options) (es : List ClientEvent)
    (o : List (String × ParamVal)) (c : Options) (k : String) (v : ParamVal)
    (hc : optGet c k = none) (hk : k ≠ "baseUrl") :
    runEvents inst (es ++ [ClientEvent.setOpts o]) = runEvents inst es ∧
    runEvents inst (ClientEvent.setOpts o :: ClientEvent.call c :: []) =
      [buildDescriptor (setOptions inst o) c] ∧
    optGet (buildDescriptor (setOptions inst [(k, v)]) c) k = some v := by
  refine ⟨runEvents_append_setOpts es inst o, rfl, ?_⟩
  unfold buildDescriptor mergeOpts
  rw [optGet_setOpt_ne _ _ _ _ (Ne.symm hk), optGet_assignAll_of_none c _ k hc]
  show optGet (assignAll inst [(k, v)]) k = some v
  simp only [assignAll, List.foldl_cons, List.foldl_nil]
  exact optGet_setOpt_self inst k v

/-- C9 witness: the statement at a concrete instance snapshot, one queued
call, a `token` update and an empty per-call options object. -/
theorem claim_C9_witness :
    optGet ([] : Options) "token" = none ∧ "token" ≠ "baseUrl" ∧
    (runEvents [("protocol", ParamVal.str "https"), ("host", ParamVal.str "h")]
        ([ClientEvent.call []] ++ [ClientEvent.setOpts [("token", ParamVal.str "T")]]) =
      runEvents [("protocol", ParamVal.str "https"), ("host", ParamVal.str "h")]
        [ClientEvent.call []] ∧
     runEvents [("protocol", ParamVal.str "https"), ("host", ParamVal.str "h")]
        (ClientEvent.setOpts [("token", ParamVal.str "T")] :: ClientEvent.call [] :: []) =
      [buildDescriptor (setOptions [("protocol", ParamVal.str "https"),
          ("host", ParamVal.str "h")] [("token", ParamVal.str "T")]) []] ∧
     optGet (buildDescriptor (setOptions [("protocol", ParamVal.str "https"),
          ("host", ParamVal.str "h")] [("token", ParamVal.str "T")]) []) "token" =
      some (ParamVal.str "T")) :=
  ⟨by decide, by decide,
    claim_C9 [("protocol", ParamVal.str "https"), ("host", ParamVal.str "h")]
      [ClientEvent.call []] [("token", ParamVal.str "T")] [] "token"
      (ParamVal.str "T") (by decide) (by decide)⟩

end Apify
